import Mathlib

/-!
A shallow embedding of the spz worker (`src/spz.js`) of the gauzilla
repository.

The worker owns a decode-and-transfer pipeline: it fetches raw bytes for a
URL, copies them into the wasm engine's heap, invokes the engine's
`load_spz` decoder, copies the six resulting engine-owned float vectors into
newly allocated host arrays, releases all engine memory, and posts the
result to the main thread with the six backing buffers listed as transfer
targets.

Modelling choices:
* The engine heap (`HEAPF32`) is a total map `Nat → Int`; element values are
  integers because the pipeline only moves values (the only per-element
  function ever applied is the identity default of `floatVectorToFloatArray`),
  so no floating-point arithmetic needs to be modelled.
* A JS `Float32Array` over host memory is a `HostArr`: a backing-buffer id
  (each construction allocates a fresh buffer) plus the copied contents.
* Effects of `load` are recorded as an event trace (`Ev`): object-URL
  revocation, engine buffer acquisition (`_malloc` for the input buffer,
  the engine-internal allocation of the six decoder output vectors), engine
  `_free` calls, and `postMessage` emissions.  Fallible environment steps
  (network fetch, HTTP status, body read, `_malloc`, `load_spz`) are fault
  injected through a `LoadEnv` record, so every exit path of `load` is a
  case of the model.
* The engine itself (`lib/spz/spz.mjs`, a wasm module) is not part of the
  sources; where a claim depends on its behaviour it is modelled from the
  spec, marked as such on the definition.
-/

namespace Spz

/-- The engine heap `HEAPF32`, modelled as a total map from word index to
element value. -/
abbrev Heap := Nat → Int

/-- A `vector<float>` handle inside the engine, as the JS reads it off:
`wasmModule.vf32_ptr(vec)` (data pointer) and `vec.size()`. -/
structure RawVec where
  ptr : Nat
  size : Nat
deriving DecidableEq

/-- The raw gaussian-cloud struct returned by the engine's `load_spz` entry
point: scalar metadata plus six engine-owned float vectors. -/
structure RawGSCloud where
  numPoints : Nat
  shDegree : Nat
  antialiased : Bool
  positions : RawVec
  scales : RawVec
  rotations : RawVec
  alphas : RawVec
  colors : RawVec
  sh : RawVec
deriving DecidableEq

/-- The zero-copy engine-memory view
`new Float32Array(wasmModule.HEAPF32.buffer, pointer, size)`. -/
def view (h : Heap) (v : RawVec) : List Int :=
  (List.range v.size).map (fun i => h (v.ptr + i))

/-- A host-runtime typed array: the id of its (newly allocated) backing
`ArrayBuffer` plus its element contents.  `buffer.map` in JS always
allocates a new typed array with a new backing buffer, which is why the
model gives every constructed `HostArr` a fresh `buf` id. -/
structure HostArr where
  buf : Nat
  data : List Int
deriving DecidableEq

/-- `src/spz.js` lines 5–11.  Builds the engine-memory view for `vec` and
copies it element-wise (`buffer.map(enhancementFunc)`) into a new host
array.  The JS default for `enhancementFunc` is the identity `(n) => n`;
`bufId` is the model's name for the freshly allocated backing buffer. -/
def floatVectorToFloatArray (h : Heap) (v : RawVec) (f : Int → Int) (bufId : Nat) : HostArr :=
  ⟨bufId, (view h v).map f⟩

/-- The decoded scene (`gaussianCloud` object). -/
structure Scene where
  numPoints : Nat
  shDegree : Nat
  antialiased : Bool
  positions : HostArr
  scales : HostArr
  rotations : HostArr
  alphas : HostArr
  colors : HostArr
  sh : HostArr
deriving DecidableEq

/-- `src/spz.js` lines 14–26.  Copies each of the six engine vectors into a
newly host-allocated array and passes the scalar metadata through.  The JS
call site passes an `options` argument that the function ignores (it calls
`floatVectorToFloatArray` with two arguments, so the enhancement function is
always the identity default).  `fresh` is the id of the first of the six
freshly allocated host buffers. -/
def createGaussianCloudFromRaw (h : Heap) (raw : RawGSCloud) (fresh : Nat) : Scene :=
  { numPoints := raw.numPoints
    shDegree := raw.shDegree
    antialiased := raw.antialiased
    positions := floatVectorToFloatArray h raw.positions (fun n => n) fresh
    scales := floatVectorToFloatArray h raw.scales (fun n => n) (fresh + 1)
    rotations := floatVectorToFloatArray h raw.rotations (fun n => n) (fresh + 2)
    alphas := floatVectorToFloatArray h raw.alphas (fun n => n) (fresh + 3)
    colors := floatVectorToFloatArray h raw.colors (fun n => n) (fresh + 4)
    sh := floatVectorToFloatArray h raw.sh (fun n => n) (fresh + 5) }

/-- The data pointers of the six engine output vectors, in the order
`disposeRawGSCloud` frees them (`src/spz.js` lines 29–36). -/
def rawPtrs (raw : RawGSCloud) : List Nat :=
  [raw.positions.ptr, raw.scales.ptr, raw.rotations.ptr,
   raw.alphas.ptr, raw.colors.ptr, raw.sh.ptr]

/-- The outbound success message (`status: 'loaded'`): scalar metadata plus
the six backing-buffer ids (`gaussianCloud.positions.buffer`, …). -/
structure OutMsg where
  numPoints : Nat
  shDegree : Nat
  antialiased : Bool
  positions : Nat
  scales : Nat
  rotations : Nat
  alphas : Nat
  colors : Nat
  sh : Nat
deriving DecidableEq

/-- `src/spz.js` lines 109–130: the `self.postMessage` call.  Builds the
envelope by moving the six backing buffers (no element copy: the message
fields are the buffer ids themselves) and enumerates those same buffers as
the transfer list. -/
def buildEnvelope (s : Scene) : OutMsg × List Nat :=
  ({ numPoints := s.numPoints
     shDegree := s.shDegree
     antialiased := s.antialiased
     positions := s.positions.buf
     scales := s.scales.buf
     rotations := s.rotations.buf
     alphas := s.alphas.buf
     colors := s.colors.buf
     sh := s.sh.buf },
   [s.positions.buf, s.scales.buf, s.rotations.buf,
    s.alphas.buf, s.colors.buf, s.sh.buf])

/-- Observable events of one `load` call.  `alloc` is the `_malloc` of the
input buffer; `acquire` records the engine-internal allocation of one
decoder output vector (observed through the spec's engine interface when
`load_spz` succeeds); `free` is an engine `_free`; `revoke` is
`URL.revokeObjectURL`; `post` is a `self.postMessage`. -/
inductive Ev
  | revoke
  | alloc (ptr : Nat)
  | acquire (ptr : Nat)
  | free (ptr : Nat)
  | post (m : OutMsg)
deriving DecidableEq

/-- The error kinds a `load` call can end in (the JS throws `Error`s whose
messages distinguish these cases; init failure is the rejection of
`SpzSingleton.getInstance()`, raised before the `try` block). -/
inductive LoadErr
  | initErr
  | fetchErr
  | httpErr
  | allocErr
  | decodeErr
deriving DecidableEq

/-- Fault-injection environment for one `load` call: outcome of the network
fetch (`fetchResolves` — the `fetch` promise resolves), the HTTP status
check (`responseOk` — `response.ok`), the body read (`bodyOk` —
`response.arrayBuffer()` resolves), the engine input-buffer allocation
(`allocResult` — `none` models `_malloc` returning `null`, which is the
failure value the JS tests for), the decode (`decodeResult` — `none` models
`load_spz` throwing), and the engine heap contents at copy-out time. -/
structure LoadEnv where
  fetchResolves : Bool
  responseOk : Bool
  bodyOk : Bool
  allocResult : Option Nat
  decodeResult : Option RawGSCloud
  heap : Heap

/-- The six `_free` calls of `disposeRawGSCloud` (`src/spz.js` lines 29–36),
one per engine output vector, as trace events. -/
def disposeRawGSCloud (raw : RawGSCloud) : List Ev :=
  (rawPtrs raw).map Ev.free

/-- `src/spz.js` lines 66–141, as a trace: `inst` is the awaited result of
`SpzSingleton.getInstance()` (`none` = the promise rejected, which happens
before the `try`, so nothing is revoked, allocated or posted).  Inside the
`try`: a rejected fetch or a non-ok status throws before
`URL.revokeObjectURL(url)`; the revocation happens only after the ok check.
`pointer` starts as `null` and the `finally` block frees it exactly when it
is non-null, after the `catch` logging; `disposeRawGSCloud` runs on the
success path only, right after the copy-out and before `postMessage`. -/
def load (inst : Option Nat) (env : LoadEnv) : List Ev × Option LoadErr :=
  match inst with
  | none => ([], some .initErr)
  | some _ =>
    if env.fetchResolves = false then ([], some .fetchErr)
    else if env.responseOk = false then ([], some .httpErr)
    else if env.bodyOk = false then ([Ev.revoke], some .fetchErr)
    else
      match env.allocResult with
      | none => ([Ev.revoke], some .allocErr)
      | some p =>
        match env.decodeResult with
        | none => ([Ev.revoke, Ev.alloc p, Ev.free p], some .decodeErr)
        | some raw =>
          let scene := createGaussianCloudFromRaw env.heap raw 0
          ([Ev.revoke, Ev.alloc p]
            ++ (rawPtrs raw).map Ev.acquire
            ++ disposeRawGSCloud raw
            ++ [Ev.post (buildEnvelope scene).1, Ev.free p], none)

/-- Number of events in a trace satisfying `p`. -/
def countE (p : Ev → Bool) (evs : List Ev) : Nat :=
  (evs.filter p).length

/-- Engine buffer acquisitions: successful `_malloc` plus decoder-output
allocations. -/
def isAcq : Ev → Bool
  | .alloc _ => true
  | .acquire _ => true
  | _ => false

/-- Engine `_free` calls. -/
def isFree : Ev → Bool
  | .free _ => true
  | _ => false

/-- `postMessage` emissions. -/
def isPost : Ev → Bool
  | .post _ => true
  | _ => false

/-- `URL.revokeObjectURL` calls. -/
def isRevoke : Ev → Bool
  | .revoke => true
  | _ => false

/-- Settlement state of the singleton's loading promise. -/
inductive PState
  | pending
  | resolved (e : Nat)
  | rejected
deriving DecidableEq

/-- State of `class SpzSingleton` (`src/spz.js` lines 39–63).  `inst` is the
static `instance` field (engine handles are opaque `Nat` tokens); the JS
`loadingPromise` field is split into the identity of the promise object
(`loadingId`, so that "same pending operation" is expressible) and its
settlement state (`loadingState`).  `initCalls` counts invocations of the
wasm initializer `spzwasm()`; `fresh` supplies new promise ids (each
`Promise.resolve(this.instance)` is a new promise object). -/
structure SingState where
  inst : Option Nat
  loadingId : Option Nat
  loadingState : PState
  initCalls : Nat
  fresh : Nat
deriving DecidableEq

/-- What `getInstance` returns: either a brand-new already-resolved promise
(`Promise.resolve(this.instance)`) or the shared `loadingPromise` (named by
its id). -/
inductive GetResult
  | freshResolved (id : Nat) (e : Nat)
  | shared (id : Nat)
deriving DecidableEq

namespace SpzSingleton

/-- The initial static state: `instance = null`, `loadingPromise = null`. -/
def init0 : SingState :=
  { inst := none, loadingId := none, loadingState := .pending,
    initCalls := 0, fresh := 0 }

/-- `src/spz.js` lines 43–62.  If `instance` is set, return a fresh resolved
promise for it.  Otherwise, if `loadingPromise` is unset, create it (its
executor invokes `spzwasm()`, counted in `initCalls`; the promise starts
pending) and return it; if it is already set, return that same promise —
note that nothing ever resets `loadingPromise`. -/
def getInstance (s : SingState) : GetResult × SingState :=
  match s.inst with
  | some e => (.freshResolved s.fresh e, { s with fresh := s.fresh + 1 })
  | none =>
    match s.loadingId with
    | some pid => (.shared pid, s)
    | none =>
      (.shared s.fresh,
       { s with loadingId := some s.fresh, loadingState := .pending,
                initCalls := s.initCalls + 1, fresh := s.fresh + 1 })

/-- Settlement of the loading promise by its executor (`src/spz.js` lines
50–57): on success `this.instance` is set and the promise resolves; on
failure the promise rejects and `instance` stays `null` — `loadingPromise`
is not cleared in either case. -/
def settle (outcome : Option Nat) (s : SingState) : SingState :=
  match outcome with
  | some e => { s with inst := some e, loadingState := .resolved e }
  | none => { s with loadingState := .rejected }

/-- A sequence of `getInstance` calls, collecting the returned promises. -/
def getMany : Nat → SingState → List GetResult × SingState
  | 0, s => ([], s)
  | n + 1, s =>
    let (r, s1) := getInstance s
    let (rs, s2) := getMany n s1
    (r :: rs, s2)

/-- Whether a returned promise yields engine `e` once settled (used for the
post-success fan-out property). -/
def yieldsEngine (e : Nat) : GetResult → Bool
  | .freshResolved _ e2 => e2 == e
  | .shared _ => false

end SpzSingleton

/-- Inbound worker messages (`src/spz.js` lines 145–153): a `load` command
carrying its fault-injection environment, or a message whose `type` matches
no `case` of the `switch`. -/
inductive InMsg
  | loadMsg (env : LoadEnv)
  | other

/-- Awaiting `SpzSingleton.getInstance()` inside `load`, in the sequential
worker model: `initB` is the (fixed) outcome `spzwasm()` would produce —
fixed because the initializer runs at most once.  If the call just created
the loading promise, its executor runs and settles it before the `await`
returns; awaiting a rejected promise yields `none` (the rejection). -/
def getEngineAwait (initB : Option Nat) (s : SingState) : Option Nat × SingState :=
  let (r, s1) := SpzSingleton.getInstance s
  let s2 := if s1.loadingState = PState.pending ∧ s1.loadingId.isSome
            then SpzSingleton.settle initB s1 else s1
  match r with
  | .freshResolved _ e => (some e, s2)
  | .shared _ =>
    match s2.loadingState with
    | .resolved e => (some e, s2)
    | _ => (none, s2)

/-- One dispatch of the worker's message listener (`src/spz.js` lines
145–153): a `load` command runs `load` (its rejection, if any, is an
unhandled promise rejection that the host only logs); any other `type`
falls through the `switch` and does nothing. -/
def handleMsg (initB : Option Nat) (s : SingState) (m : InMsg) : SingState × List Ev :=
  match m with
  | .other => (s, [])
  | .loadMsg env =>
    let (eng, s2) := getEngineAwait initB s
    (s2, (load eng env).1)

/-- The worker's listening loop over a queue of inbound messages: every
message is dispatched in order, threading the singleton state; the trace of
each dispatch is kept separately. -/
def runWorker (initB : Option Nat) (s : SingState) : List InMsg → SingState × List (List Ev)
  | [] => (s, [])
  | m :: ms =>
    let (s2, evs) := handleMsg initB s m
    let (s3, rest) := runWorker initB s2 ms
    (s3, evs :: rest)

/-- Modelled from the spec: the SH coefficient count per colour channel as a
function of `shDegree` (spec §3: "`sh` (coefficient count derived from
`shDegree` × 3 channels/point)", degree range 0–3).  The engine that fixes
the concrete mapping (`load_spz` in `lib/spz/spz.mjs`) is not among the
sources, so the count is kept abstract: claims about it quantify over the
mapping `shCC`. -/
def wellFormedRaw (shCC : Nat → Nat) (raw : RawGSCloud) : Prop :=
  raw.positions.size = raw.numPoints * 3 ∧
  raw.scales.size = raw.numPoints * 3 ∧
  raw.rotations.size = raw.numPoints * 4 ∧
  raw.alphas.size = raw.numPoints * 1 ∧
  raw.colors.size = raw.numPoints * 3 ∧
  raw.sh.size = raw.numPoints * 3 * shCC raw.shDegree

instance (shCC : Nat → Nat) (raw : RawGSCloud) : Decidable (wellFormedRaw shCC raw) := by
  unfold wellFormedRaw; infer_instance

/-- Every dispatched trace is free of `postMessage` events. -/
def postFreeTraces (ts : List (List Ev)) : Bool :=
  ts.all (fun evs => evs.all (fun ev => !isPost ev))

/-- The singleton state after a failed (or never-run) initialization: no
instance, and no loading promise that resolved. -/
def poisoned (s : SingState) : Prop :=
  s.inst = none ∧ ∀ e, s.loadingState ≠ PState.resolved e

/-- A concrete environment whose fetch resolves with a non-ok HTTP status
(e.g. 404); everything downstream is set up to succeed. -/
def env404 : LoadEnv :=
  { fetchResolves := true, responseOk := false, bodyOk := true,
    allocResult := some 16, decodeResult := none, heap := fun _ => 0 }

/-- A concrete decoded raw cloud with zero points (all vectors empty). -/
def rawW0 : RawGSCloud :=
  { numPoints := 0, shDegree := 0, antialiased := false,
    positions := ⟨0, 0⟩, scales := ⟨0, 0⟩, rotations := ⟨0, 0⟩,
    alphas := ⟨0, 0⟩, colors := ⟨0, 0⟩, sh := ⟨0, 0⟩ }

/-- A concrete environment in which every pipeline step succeeds. -/
def goodEnvW : LoadEnv :=
  { fetchResolves := true, responseOk := true, bodyOk := true,
    allocResult := some 4, decodeResult := some rawW0, heap := fun _ => 0 }

/-- A concrete well-formed one-point raw cloud of SH degree 0, laid out
contiguously in the engine heap. -/
def rawW1 : RawGSCloud :=
  { numPoints := 1, shDegree := 0, antialiased := true,
    positions := ⟨0, 3⟩, scales := ⟨3, 3⟩, rotations := ⟨6, 4⟩,
    alphas := ⟨10, 1⟩, colors := ⟨11, 3⟩, sh := ⟨14, 0⟩ }

/-- A concrete SH coefficient-count mapping (degree `d` contributes
`(d+1)^2 - 1` coefficients per channel). -/
def shCCW (d : Nat) : Nat := (d + 1) ^ 2 - 1

end Spz

namespace Spz

lemma getMany_shared (n : Nat) :
    ∀ (s : SingState) (j : Nat), s.inst = none → s.loadingId = some j →
      SpzSingleton.getMany n s = (List.replicate n (GetResult.shared j), s) := by
  induction n with
  | zero => intro s j _ _; rfl
  | succ n ih =>
    intro s j h1 h2
    simp [SpzSingleton.getMany, SpzSingleton.getInstance, h1, h2, ih s j h1 h2,
      List.replicate_succ]

lemma getMany_inst (e : Nat) :
    ∀ (k : Nat) (s : SingState), s.inst = some e →
      ((SpzSingleton.getMany k s).1.all (SpzSingleton.yieldsEngine e)) = true ∧
      (SpzSingleton.getMany k s).2.initCalls = s.initCalls := by
  intro k
  induction k with
  | zero => intro s _; exact ⟨rfl, rfl⟩
  | succ k ih =>
    intro s h1
    have step : SpzSingleton.getInstance s
        = (GetResult.freshResolved s.fresh e, { s with fresh := s.fresh + 1 }) := by
      simp [SpzSingleton.getInstance, h1]
    have ih2 := ih { s with fresh := s.fresh + 1 } h1
    simp [SpzSingleton.getMany, step, SpzSingleton.yieldsEngine, ih2.1, ih2.2]

lemma getMany_init0 (n : Nat) :
    SpzSingleton.getMany (n + 1) SpzSingleton.init0
      = (List.replicate (n + 1) (GetResult.shared 0),
         { inst := none, loadingId := some 0, loadingState := .pending,
           initCalls := 1, fresh := 1 }) := by
  have h := getMany_shared n
    { inst := none, loadingId := some 0, loadingState := .pending, initCalls := 1, fresh := 1 }
    0 rfl rfl
  simp [SpzSingleton.getMany, SpzSingleton.getInstance, SpzSingleton.init0, h,
    List.replicate_succ]

end Spz

namespace Spz

/-- C1: for every `load` call, over every exit path of the fault-injection
environment (initialization failure, network failure, non-ok status, body
failure, allocation failure, decode failure, success), the number of engine
buffer acquisitions (the successful `_malloc` of the input buffer plus the
six decoder output vectors) equals the number of engine `_free` calls in
that call's trace. -/
theorem c1_load_alloc_free_balanced (inst : Option Nat) (env : LoadEnv) :
    countE isAcq (load inst env).1 = countE isFree (load inst env).1 := by
  rcases env with ⟨fr, ok, bo, ar, dr, h⟩
  cases inst <;> cases fr <;> cases ok <;> cases bo <;> cases ar <;> cases dr <;>
    simp [load, countE, disposeRawGSCloud, rawPtrs, isAcq, isFree, List.filter_append]

/-- C2: every array of the scene built by `createGaussianCloudFromRaw` is a
newly host-allocated copy — its backing buffer is a fresh id (six distinct
new buffers) and its contents are element-wise equal to the engine-memory
view at the moment of copying; the scene stores the copied values
themselves, not a (heap, pointer) view, so it cannot observe the engine
heap after the buffers are released. -/
theorem c2_scene_arrays_are_copies (h : Heap) (raw : RawGSCloud) (fresh : Nat) :
    (createGaussianCloudFromRaw h raw fresh).positions.data = view h raw.positions ∧
    (createGaussianCloudFromRaw h raw fresh).scales.data = view h raw.scales ∧
    (createGaussianCloudFromRaw h raw fresh).rotations.data = view h raw.rotations ∧
    (createGaussianCloudFromRaw h raw fresh).alphas.data = view h raw.alphas ∧
    (createGaussianCloudFromRaw h raw fresh).colors.data = view h raw.colors ∧
    (createGaussianCloudFromRaw h raw fresh).sh.data = view h raw.sh ∧
    (createGaussianCloudFromRaw h raw fresh).positions.buf = fresh ∧
    (createGaussianCloudFromRaw h raw fresh).scales.buf = fresh + 1 ∧
    (createGaussianCloudFromRaw h raw fresh).rotations.buf = fresh + 2 ∧
    (createGaussianCloudFromRaw h raw fresh).alphas.buf = fresh + 3 ∧
    (createGaussianCloudFromRaw h raw fresh).colors.buf = fresh + 4 ∧
    (createGaussianCloudFromRaw h raw fresh).sh.buf = fresh + 5 := by
  simp [createGaussianCloudFromRaw, floatVectorToFloatArray]

/-- C5: when the fetch pipeline has succeeded and the engine cannot satisfy
the input-buffer allocation (`_malloc` returns the failure value the JS
tests for), `load` ends in `allocErr` having emitted only the URL
revocation: no engine buffer was acquired and, in particular, no engine
`_free` is issued for the failed allocation. -/
theorem c5_alloc_failure_no_partial_state (e : Nat) (dr : Option RawGSCloud) (h : Heap) :
    load (some e)
        { fetchResolves := true, responseOk := true, bodyOk := true,
          allocResult := none, decodeResult := dr, heap := h }
      = ([Ev.revoke], some LoadErr.allocErr) ∧
    countE isFree (load (some e)
        { fetchResolves := true, responseOk := true, bodyOk := true,
          allocResult := none, decodeResult := dr, heap := h }).1 = 0 ∧
    countE isAcq (load (some e)
        { fetchResolves := true, responseOk := true, bodyOk := true,
          allocResult := none, decodeResult := dr, heap := h }).1 = 0 := by
  refine ⟨rfl, rfl, rfl⟩

/-- C6: building the outbound envelope copies no array data — the six array
fields of the success message are exactly the backing buffers of the
scene's arrays, the transfer list is exactly those same six buffers (in the
source's order), and the scalar metadata is passed through unchanged. -/
theorem c6_envelope_moves_buffers (s : Scene) :
    (buildEnvelope s).1.positions = s.positions.buf ∧
    (buildEnvelope s).1.scales = s.scales.buf ∧
    (buildEnvelope s).1.rotations = s.rotations.buf ∧
    (buildEnvelope s).1.alphas = s.alphas.buf ∧
    (buildEnvelope s).1.colors = s.colors.buf ∧
    (buildEnvelope s).1.sh = s.sh.buf ∧
    (buildEnvelope s).2
      = [s.positions.buf, s.scales.buf, s.rotations.buf,
         s.alphas.buf, s.colors.buf, s.sh.buf] ∧
    (buildEnvelope s).1.numPoints = s.numPoints ∧
    (buildEnvelope s).1.shDegree = s.shDegree ∧
    (buildEnvelope s).1.antialiased = s.antialiased := by
  refine ⟨rfl, rfl, rfl, rfl, rfl, rfl, rfl, rfl, rfl, rfl⟩

/-- C8 (counterexample): with a fetch that resolves to a non-ok HTTP status
(`env404`), `load` throws before reaching `URL.revokeObjectURL`, so the
object URL is never revoked — refuting the claim that the URL resource is
released regardless of outcome, including when the retrieval fails. -/
theorem c8_counterexample_404_no_revoke :
    load (some 0) env404 = ([], some LoadErr.httpErr) ∧
    countE isRevoke (load (some 0) env404).1 = 0 := by
  refine ⟨rfl, rfl⟩

/-- C8 (amended): the object URL is revoked exactly once when the fetch
resolves with an ok status (immediately after the status check, before the
body is read), and is not revoked on a network error, on a non-ok HTTP
status, or when engine initialization failed. -/
theorem c8_revoke_exactly_on_ok_fetch (e : Nat) (env : LoadEnv) :
    countE isRevoke (load (some e) env).1
      = (if env.fetchResolves && env.responseOk then 1 else 0) ∧
    countE isRevoke (load none env).1 = 0 := by
  rcases env with ⟨fr, ok, bo, ar, dr, h⟩
  refine ⟨?_, rfl⟩
  cases fr <;> cases ok <;> cases bo <;> cases ar <;> cases dr <;>
    simp [load, countE, disposeRawGSCloud, rawPtrs, isRevoke, List.filter_append]

/-- C10: a `load` call posts exactly one outbound message when its pipeline
succeeds and none when it fails with any error, and the listener does
nothing (no state change, no events) for an inbound message whose type is
not `load`. -/
theorem c10_post_only_on_success (inst : Option Nat) (env : LoadEnv)
    (initB : Option Nat) (s : SingState) :
    countE isPost (load inst env).1
      = (if (load inst env).2 = none then 1 else 0) ∧
    handleMsg initB s InMsg.other = (s, []) := by
  refine ⟨?_, rfl⟩
  rcases env with ⟨fr, ok, bo, ar, dr, h⟩
  cases inst <;> cases fr <;> cases ok <;> cases bo <;> cases ar <;> cases dr <;>
    simp [load, countE, disposeRawGSCloud, rawPtrs, isPost, List.filter_append]

end Spz

namespace Spz

/-- C3: starting from the initial singleton state, any number `n + 1` of
`getInstance` calls issued before the first initialization settles invoke
the wasm initializer exactly once and all return the same pending loading
promise (promise id 0); and after that promise resolves with engine `e`,
every subsequent call yields that same singleton handle `e`, still without
any further initializer invocation. -/
theorem c3_getInstance_at_most_once (n k e : Nat) :
    (SpzSingleton.getMany (n + 1) SpzSingleton.init0).2.initCalls = 1 ∧
    (SpzSingleton.getMany (n + 1) SpzSingleton.init0).1
      = List.replicate (n + 1) (GetResult.shared 0) ∧
    (SpzSingleton.getMany (n + 1) SpzSingleton.init0).2.loadingState = PState.pending ∧
    ((SpzSingleton.getMany k (SpzSingleton.settle (some e)
        (SpzSingleton.getMany (n + 1) SpzSingleton.init0).2)).1.all
      (SpzSingleton.yieldsEngine e)) = true ∧
    (SpzSingleton.getMany k (SpzSingleton.settle (some e)
        (SpzSingleton.getMany (n + 1) SpzSingleton.init0).2)).2.initCalls = 1 := by
  have h0 := getMany_init0 n
  have hpost := getMany_inst e k
    { inst := some e, loadingId := some 0, loadingState := .resolved e,
      initCalls := 1, fresh := 1 } rfl
  rw [h0]
  exact ⟨rfl, rfl, rfl, hpost.1, hpost.2⟩

/-- C4 (counterexample): after the first `getInstance` call and a failed
initialization, a second `getInstance` call does not trigger a fresh
initialization attempt — the initializer count stays at 1 and the call
returns the very same loading promise (id 0), which is in the rejected
state. -/
theorem c4_counterexample_no_retry :
    (SpzSingleton.getInstance (SpzSingleton.settle none
        (SpzSingleton.getInstance SpzSingleton.init0).2)).2.initCalls = 1 ∧
    (SpzSingleton.getInstance (SpzSingleton.settle none
        (SpzSingleton.getInstance SpzSingleton.init0).2)).1 = GetResult.shared 0 ∧
    (SpzSingleton.settle none
        (SpzSingleton.getInstance SpzSingleton.init0).2).loadingState
      = PState.rejected := by
  decide

/-- C4 (amended): if initialization fails, the failure is surfaced to every
caller waiting on it — all `n + 1` callers hold the one shared loading
promise, which ends rejected — but a subsequent `getInstance` call does not
retry: every later call returns that same rejected promise, the state is
unchanged, and the initializer is never invoked again (the singleton stays
poisoned for the life of the worker). -/
theorem c4_failure_surfaced_but_never_retried (n k : Nat) :
    (SpzSingleton.getMany (n + 1) SpzSingleton.init0).1
      = List.replicate (n + 1) (GetResult.shared 0) ∧
    (SpzSingleton.settle none
        (SpzSingleton.getMany (n + 1) SpzSingleton.init0).2).loadingState
      = PState.rejected ∧
    SpzSingleton.getMany k (SpzSingleton.settle none
        (SpzSingleton.getMany (n + 1) SpzSingleton.init0).2)
      = (List.replicate k (GetResult.shared 0),
         SpzSingleton.settle none
           (SpzSingleton.getMany (n + 1) SpzSingleton.init0).2) ∧
    (SpzSingleton.settle none
        (SpzSingleton.getMany (n + 1) SpzSingleton.init0).2).initCalls = 1 := by
  have h0 := getMany_init0 n
  have hk := getMany_shared k
    { inst := none, loadingId := some 0, loadingState := .rejected,
      initCalls := 1, fresh := 1 } 0 rfl rfl
  rw [h0]
  exact ⟨rfl, rfl, hk, rfl⟩

/-- C7: for any SH coefficient-count mapping `shCC`, if the raw cloud the
engine returns is well-formed for `shCC` (the spec-modelled guarantee on
`load_spz`), then the scene built by `createGaussianCloudFromRaw` satisfies
all six length equalities: `positions`, `scales`, `colors` have
`numPoints * 3` elements, `rotations` has `numPoints * 4`, `alphas` has
`numPoints * 1`, and `sh` has `numPoints * 3 * shCC shDegree`. -/
theorem c7_scene_array_lengths (shCC : Nat → Nat) (h : Heap) (raw : RawGSCloud)
    (fresh : Nat) (hw : wellFormedRaw shCC raw) :
    (createGaussianCloudFromRaw h raw fresh).positions.data.length
      = (createGaussianCloudFromRaw h raw fresh).numPoints * 3 ∧
    (createGaussianCloudFromRaw h raw fresh).scales.data.length
      = (createGaussianCloudFromRaw h raw fresh).numPoints * 3 ∧
    (createGaussianCloudFromRaw h raw fresh).rotations.data.length
      = (createGaussianCloudFromRaw h raw fresh).numPoints * 4 ∧
    (createGaussianCloudFromRaw h raw fresh).alphas.data.length
      = (createGaussianCloudFromRaw h raw fresh).numPoints * 1 ∧
    (createGaussianCloudFromRaw h raw fresh).colors.data.length
      = (createGaussianCloudFromRaw h raw fresh).numPoints * 3 ∧
    (createGaussianCloudFromRaw h raw fresh).sh.data.length
      = (createGaussianCloudFromRaw h raw fresh).numPoints * 3
          * shCC ((createGaussianCloudFromRaw h raw fresh).shDegree) := by
  obtain ⟨h1, h2, h3, h4, h5, h6⟩ := hw
  simp [createGaussianCloudFromRaw, floatVectorToFloatArray, view, h1, h2, h3, h4, h5, h6]

/-- C7 (witness): the one-point degree-0 raw cloud `rawW1` is well-formed
for the concrete mapping `shCCW`, and the scene built from it has the six
required lengths. -/
theorem c7_scene_array_lengths_witness :
    wellFormedRaw shCCW rawW1 ∧
    ((createGaussianCloudFromRaw (fun _ => 0) rawW1 0).positions.data.length
      = (createGaussianCloudFromRaw (fun _ => 0) rawW1 0).numPoints * 3 ∧
    (createGaussianCloudFromRaw (fun _ => 0) rawW1 0).scales.data.length
      = (createGaussianCloudFromRaw (fun _ => 0) rawW1 0).numPoints * 3 ∧
    (createGaussianCloudFromRaw (fun _ => 0) rawW1 0).rotations.data.length
      = (createGaussianCloudFromRaw (fun _ => 0) rawW1 0).numPoints * 4 ∧
    (createGaussianCloudFromRaw (fun _ => 0) rawW1 0).alphas.data.length
      = (createGaussianCloudFromRaw (fun _ => 0) rawW1 0).numPoints * 1 ∧
    (createGaussianCloudFromRaw (fun _ => 0) rawW1 0).colors.data.length
      = (createGaussianCloudFromRaw (fun _ => 0) rawW1 0).numPoints * 3 ∧
    (createGaussianCloudFromRaw (fun _ => 0) rawW1 0).sh.data.length
      = (createGaussianCloudFromRaw (fun _ => 0) rawW1 0).numPoints * 3
          * shCCW ((createGaussianCloudFromRaw (fun _ => 0) rawW1 0).shDegree)) :=
  ⟨by decide, c7_scene_array_lengths shCCW (fun _ => 0) rawW1 0 (by decide)⟩

end Spz

namespace Spz

lemma handleMsg_load (initB : Option Nat) (s : SingState) (env : LoadEnv) :
    handleMsg initB s (InMsg.loadMsg env)
      = ((getEngineAwait initB s).2, (load (getEngineAwait initB s).1 env).1) := rfl

lemma runWorker_cons (initB : Option Nat) (s : SingState) (m : InMsg) (ms : List InMsg) :
    runWorker initB s (m :: ms)
      = ((runWorker initB (handleMsg initB s m).1 ms).1,
         (handleMsg initB s m).2 :: (runWorker initB (handleMsg initB s m).1 ms).2) := rfl

lemma runWorker_length (initB : Option Nat) :
    ∀ (ms : List InMsg) (s : SingState),
      (runWorker initB s ms).2.length = ms.length := by
  intro ms
  induction ms with
  | nil => intro s; rfl
  | cons m ms ih => intro s; rw [runWorker_cons]; simp [ih]

lemma getEngineAwait_none_poisoned (s : SingState) (hs : poisoned s) :
    (getEngineAwait none s).1 = none ∧ poisoned (getEngineAwait none s).2 := by
  obtain ⟨h1, h2⟩ := hs
  rcases s with ⟨i, lid, lst, ic, fr⟩
  simp only at h1
  subst h1
  cases lid with
  | none =>
    refine ⟨?_, ?_, ?_⟩ <;>
      simp [getEngineAwait, SpzSingleton.getInstance, SpzSingleton.settle, poisoned]
  | some pid =>
    cases lst with
    | pending =>
      refine ⟨?_, ?_, ?_⟩ <;>
        simp [getEngineAwait, SpzSingleton.getInstance, SpzSingleton.settle, poisoned]
    | resolved e => exact absurd rfl (h2 e)
    | rejected =>
      refine ⟨?_, ?_, ?_⟩ <;>
        simp [getEngineAwait, SpzSingleton.getInstance, SpzSingleton.settle, poisoned]

lemma runWorker_poisoned_postfree :
    ∀ (ms : List InMsg) (s : SingState), poisoned s →
      postFreeTraces (runWorker none s ms).2 = true := by
  intro ms
  induction ms with
  | nil => intro s _; rfl
  | cons m ms ih =>
    intro s hs
    cases m with
    | other =>
      rw [runWorker_cons]
      simpa [postFreeTraces, handleMsg] using ih s hs
    | loadMsg env =>
      have h := getEngineAwait_none_poisoned s hs
      rw [runWorker_cons, handleMsg_load, h.1]
      simpa [postFreeTraces, load] using ih _ h.2

end Spz

namespace Spz

/-- C9 (counterexample): with a failing engine initialization, the worker
dispatches both `load` commands of the queue (the listener is not
terminated), but both produce empty traces — in particular the second
command, whose environment (`goodEnvW`) would make every other pipeline
step succeed, still fails and posts nothing, refuting the claim that after
any failed load a subsequent load command can succeed. -/
theorem c9_counterexample_init_failure_blocks_success :
    (runWorker none SpzSingleton.init0
        [InMsg.loadMsg goodEnvW, InMsg.loadMsg goodEnvW]).2 = [[], []] := by
  rfl

/-- C9 (amended): no failure terminates the listening loop — for every
initialization behaviour and every message queue, every inbound message is
dispatched (one trace per message); for each of the three per-load failure
kinds — a fetch failure, an allocation failure (`_malloc` returns the null
failure value), and a decode failure (`load_spz` throws) — the failed load
posts nothing and a subsequent load whose steps succeed does succeed,
posting exactly one outbound message; but after a failed engine
initialization the loop, though still dispatching every command, can never
post again: all subsequent loads fail on the same rejected initialization. -/
theorem c9_listener_survives_failures (initB : Option Nat) (s : SingState)
    (ms : List InMsg) (e p pa : Nat) (raw : RawGSCloud) (ar : Option Nat)
    (dr dr2 : Option RawGSCloud) (h h3 h4 h2 : Heap) :
    (runWorker initB s ms).2.length = ms.length ∧
    countE isPost ((runWorker (some e) SpzSingleton.init0
        [InMsg.loadMsg { fetchResolves := false, responseOk := true, bodyOk := true,
                         allocResult := ar, decodeResult := dr, heap := h },
         InMsg.loadMsg { fetchResolves := true, responseOk := true, bodyOk := true,
                         allocResult := some p, decodeResult := some raw,
                         heap := h2 }]).2.getD 0 []) = 0 ∧
    countE isPost ((runWorker (some e) SpzSingleton.init0
        [InMsg.loadMsg { fetchResolves := false, responseOk := true, bodyOk := true,
                         allocResult := ar, decodeResult := dr, heap := h },
         InMsg.loadMsg { fetchResolves := true, responseOk := true, bodyOk := true,
                         allocResult := some p, decodeResult := some raw,
                         heap := h2 }]).2.getD 1 []) = 1 ∧
    countE isPost ((runWorker (some e) SpzSingleton.init0
        [InMsg.loadMsg { fetchResolves := true, responseOk := true, bodyOk := true,
                         allocResult := none, decodeResult := dr2, heap := h3 },
         InMsg.loadMsg { fetchResolves := true, responseOk := true, bodyOk := true,
                         allocResult := some p, decodeResult := some raw,
                         heap := h2 }]).2.getD 0 []) = 0 ∧
    countE isPost ((runWorker (some e) SpzSingleton.init0
        [InMsg.loadMsg { fetchResolves := true, responseOk := true, bodyOk := true,
                         allocResult := none, decodeResult := dr2, heap := h3 },
         InMsg.loadMsg { fetchResolves := true, responseOk := true, bodyOk := true,
                         allocResult := some p, decodeResult := some raw,
                         heap := h2 }]).2.getD 1 []) = 1 ∧
    countE isPost ((runWorker (some e) SpzSingleton.init0
        [InMsg.loadMsg { fetchResolves := true, responseOk := true, bodyOk := true,
                         allocResult := some pa, decodeResult := none, heap := h4 },
         InMsg.loadMsg { fetchResolves := true, responseOk := true, bodyOk := true,
                         allocResult := some p, decodeResult := some raw,
                         heap := h2 }]).2.getD 0 []) = 0 ∧
    countE isPost ((runWorker (some e) SpzSingleton.init0
        [InMsg.loadMsg { fetchResolves := true, responseOk := true, bodyOk := true,
                         allocResult := some pa, decodeResult := none, heap := h4 },
         InMsg.loadMsg { fetchResolves := true, responseOk := true, bodyOk := true,
                         allocResult := some p, decodeResult := some raw,
                         heap := h2 }]).2.getD 1 []) = 1 ∧
    postFreeTraces (runWorker none SpzSingleton.init0 ms).2 = true := by
  refine ⟨runWorker_length initB ms s, ?_, ?_, ?_, ?_, ?_, ?_,
    runWorker_poisoned_postfree ms SpzSingleton.init0 ⟨rfl, fun e2 h2 => by cases h2⟩⟩ <;>
  · rw [runWorker_cons, runWorker_cons, handleMsg_load, handleMsg_load]
    simp [getEngineAwait, SpzSingleton.getInstance, SpzSingleton.init0, SpzSingleton.settle,
      load, countE, disposeRawGSCloud, rawPtrs, isPost, List.filter_append]

end Spz
